import Mathlib

/-!
Shallow embedding of the core of the data-portal service:
the sliding-window rate limiter, the x402 payment verification engine,
the volume pricing table and the 30-day volume ledger
(`auth.py`, `pricing.py`, `volume_tracker.py`).

Python JSON values are modelled by the inductive `Json`; machine floats
are idealised as rationals; Python `round` (banker's rounding) is
`pyRound`; Firestore documents are explicit record types; the facilitator
call is a parameter of the verification function so that its outcome
(timeout, exception, HTTP response) can be quantified over.
-/

/-- A Python/JSON value as handled by `json.loads` and `resp.json()`. -/
inductive Json where
  | null : Json
  | bool : Bool → Json
  | num : ℚ → Json
  | str : String → Json
  | arr : List Json → Json
  | obj : List (String × Json) → Json

/-- Python `type(x).__name__` for a decoded JSON value. -/
def pyTypeName : Json → String
  | .null => "NoneType"
  | .bool _ => "bool"
  | .num q => if q.den = 1 then "int" else "float"
  | .str _ => "str"
  | .arr _ => "list"
  | .obj _ => "dict"

/-- Python truthiness of a decoded JSON value (`if not success`). -/
def truthy : Json → Bool
  | .null => false
  | .bool b => b
  | .num q => decide (q ≠ 0)
  | .str s => !s.isEmpty
  | .arr xs => !xs.isEmpty
  | .obj kvs => !kvs.isEmpty

/-- Python `str(x)` on a decoded JSON value (scalars rendered as CPython
renders them; containers abbreviated, no claim depends on them). -/
def pyStr : Json → String
  | .null => "None"
  | .bool true => "True"
  | .bool false => "False"
  | .num q => if q.den = 1 then toString q.num else toString q
  | .str s => s
  | .arr _ => "[...]"
  | .obj _ => "\x7b...\x7d"

/-- Python `round(q)`: banker's rounding (round half to even) to an integer. -/
def pyRound (q : ℚ) : ℤ :=
  let f := ⌊q⌋
  let r := q - f
  if r < 1/2 then f
  else if 1/2 < r then f + 1
  else if f % 2 = 0 then f else f + 1

/-- Python `round(q, 2)`. -/
def round2 (q : ℚ) : ℚ := (pyRound (q * 100) : ℚ) / 100

/-- Python `round(q, 4)`. -/
def round4 (q : ℚ) : ℚ := (pyRound (q * 10000) : ℚ) / 10000

/-- `"{:.2f}".format q` — fixed two-decimal rendering of an amount. -/
def fmt2 (q : ℚ) : String :=
  let c := pyRound (q * 100)
  let sign := if c < 0 then "-" else ""
  let a := c.natAbs
  sign ++ toString (a / 100) ++ "." ++ (if a % 100 < 10 then "0" else "") ++ toString (a % 100)

/-! ## x402 payment verification (`auth.py`, `verify_x402_payment`) -/

/-- `X402PaymentResult` from `auth.py`.  `txHash` and `error` hold whatever
Python value the code stores there (usually a string). -/
structure X402PaymentResult where
  valid : Bool
  amountUsd : ℚ
  txHash : Json
  error : Json

/-- Outcome of the single facilitator `POST .../settle` call: a timeout,
an unexpected exception raised during the attempt, or an HTTP response
with a status code, raw text body, and the result of `resp.json()`
(`Except.error` when the body is not JSON and `resp.json()` raises). -/
inductive FacilitatorOutcome where
  | timeout : FacilitatorOutcome
  | exn : String → FacilitatorOutcome
  | response : ℕ → String → Except String Json → FacilitatorOutcome

/-- Default `BASE_WALLET_ADDRESS` from `auth.py`. -/
def BASE_WALLET_ADDRESS : String := "0xFE141943a93c184606F3060103D975662327063B"

/-- `USDC_ADDRESSES.get(network, mainnet)` from `verify_x402_payment`. -/
def usdcAsset (network : String) : String :=
  if network = "eip155:84532" then "0x036CbD53842c5426634e7929541eC2318f3dCF7e"
  else "0x833589fCD6eDb6E08f4c7C32D4f71b54bdA02913"

/-- `USDC_EIP712_DOMAINS.get(network, mainnet)` from `verify_x402_payment`. -/
def usdcDomain (network : String) : Json :=
  if network = "eip155:84532" then .obj [("name", .str "USDC"), ("version", .str "2")]
  else .obj [("name", .str "USD Coin"), ("version", .str "2")]

/-- The `requirements` object assembled by `verify_x402_payment`:
scheme, network, asset, amount in smallest unit (`str(int(round(usd * 1_000_000)))`),
recipient, timeout bound and EIP-712 domain metadata. -/
def paymentRequirements (network : String) (requiredAmountUsd : ℚ) : Json :=
  .obj [("scheme", .str "exact"),
        ("network", .str network),
        ("asset", .str (usdcAsset network)),
        ("amount", .str (toString (pyRound (requiredAmountUsd * 1000000)))),
        ("payTo", .str BASE_WALLET_ADDRESS),
        ("maxTimeoutSeconds", .num 300),
        ("extra", usdcDomain network)]

/-- Interpretation of the facilitator call's outcome by `verify_x402_payment`
(lines 390-434 of `auth.py`): the non-200 branch, the bare-string branch,
the object branch with `success` truthiness and
`transaction`/`txHash` extraction, and the exception handlers. -/
def interpretResponse (requiredAmountUsd : ℚ) : FacilitatorOutcome → X402PaymentResult
  | .timeout => ⟨false, 0, .str "", .str "x402 facilitator timeout"⟩
  | .exn m => ⟨false, 0, .str "", .str ("Verification error: " ++ m)⟩
  | .response status text body =>
    if status ≠ 200 then
      ⟨false, 0, .str "",
        .str ("Facilitator settle failed (" ++ toString status ++ "): " ++ text.take 200)⟩
    else
      match body with
      | .error m => ⟨false, 0, .str "", .str ("Verification error: " ++ m)⟩
      | .ok (.str s) => ⟨true, requiredAmountUsd, .str s, .str ""⟩
      | .ok (.obj kvs) =>
          let success := (kvs.lookup "success").getD (.bool false)
          let txField := (kvs.lookup "transaction").getD ((kvs.lookup "txHash").getD (.str ""))
          let txHash : Json :=
            match txField with
            | .obj kvs2 => (kvs2.lookup "txHash").getD (.str "")
            | j => .str (pyStr j)
          if truthy success then ⟨true, requiredAmountUsd, txHash, .str ""⟩
          else ⟨false, 0, .str "", (kvs.lookup "error").getD (.str "Settlement failed")⟩
      | .ok j =>
          ⟨false, 0, .str "", .str ("Unexpected facilitator response type: " ++ pyTypeName j)⟩

/-- Environment of one `verify_x402_payment` call: the two decoding
attempts (`base64.b64decode` then `json.loads`, and plain `json.loads`,
both library functions modelled as partial decoders), the configured
network, and the outcome the facilitator would produce if called. -/
structure VerifyEnv where
  b64json : String → Option Json
  rawjson : String → Option Json
  network : String
  facilitator : FacilitatorOutcome

/-- `verify_x402_payment` from `auth.py`.  Returns the result, the number
of outbound facilitator calls performed, and the settle body sent (when a
call was made).  A decoded payload that is not a JSON object makes
`payment_payload.get` raise `AttributeError`, caught by the outer handler. -/
def verify_x402_payment (testMode : Bool) (env : VerifyEnv)
    (paymentHeader : String) (requiredAmountUsd : ℚ) :
    X402PaymentResult × ℕ × Option Json :=
  if paymentHeader = "" then
    (⟨false, 0, .str "", .str "Missing payment header"⟩, 0, none)
  else if testMode then
    (⟨true, requiredAmountUsd, .str "test-mode-no-tx", .str ""⟩, 0, none)
  else
    match decodeAttempt env paymentHeader with
    | none => (⟨false, 0, .str "", .str "Cannot decode payment header"⟩, 0, none)
    | some (.obj kvs) =>
        let version := (kvs.lookup "x402Version").getD (.num 1)
        let settleBody : Json :=
          .obj [("x402Version", version),
                ("paymentPayload", .obj kvs),
                ("paymentRequirements", paymentRequirements env.network requiredAmountUsd)]
        (interpretResponse requiredAmountUsd env.facilitator, 1, some settleBody)
    | some j =>
        (⟨false, 0, .str "",
          .str ("Verification error: '" ++ pyTypeName j ++ "' object has no attribute 'get'")⟩,
         0, none)
where
  /-- base64+JSON first, raw JSON on failure (`auth.py` lines 343-352). -/
  decodeAttempt (env : VerifyEnv) (h : String) : Option Json :=
    match env.b64json h with
    | some p => some p
    | none => env.rawjson h

/-! ## Rate limiter (`auth.py`, `RateLimiter`) -/

/-- A `rate_limits` Firestore document.  The `count` field is read with
`data.get("count", 0)`, hence modelled as optional. -/
structure FsDoc where
  key : String
  count : Option ℕ
  window : String
  createdAt : ℚ
  expireAt : ℚ

/-- The count stored in a possibly-absent rate-limit document. -/
def fsDocCount : Option FsDoc → ℕ
  | none => 0
  | some d => d.count.getD 0

/-- The transactional body of `RateLimiter._check_firestore` acting on the
`(key, windowBucket)` document: create with count 1 and a TTL of
`now + window_seconds + 3600` when absent; increment when `count < max_requests`;
deny without mutating otherwise. -/
def check_firestore_txn (doc : Option FsDoc) (key windowKey : String)
    (maxRequests : ℕ) (windowSeconds : ℕ) (now : ℚ) : Bool × Option FsDoc :=
  match doc with
  | some d =>
      let c := d.count.getD 0
      if maxRequests ≤ c then (false, some d)
      else (true, some { d with count := some (c + 1) })
  | none =>
      (true, some ⟨key, some 1, windowKey, now, now + windowSeconds + 3600⟩)

/-- A sequence of durable-mode `allow` calls on the same `(key, windowBucket)`
document, one per listed call time; returns the number of admitted calls and
the final document state. -/
def fsRun (key windowKey : String) (maxRequests windowSeconds : ℕ) :
    List ℚ → Option FsDoc → ℕ × Option FsDoc
  | [], doc => (0, doc)
  | t :: ts, doc =>
      let step := check_firestore_txn doc key windowKey maxRequests windowSeconds t
      let rest := fsRun key windowKey maxRequests windowSeconds ts step.2
      ((if step.1 then 1 else 0) + rest.1, rest.2)

/-- `RateLimiter._check_memory` on one key's recorded timestamps: drop
timestamps at or before `now - window_seconds`, deny when the retained
count already reaches `max_requests`, else record `now` and allow. -/
def check_memory (timestamps : List ℚ) (maxRequests : ℕ) (windowSeconds now : ℚ) :
    Bool × List ℚ :=
  let retained := timestamps.filter (fun t => now - windowSeconds < t)
  if maxRequests ≤ retained.length then (false, retained)
  else (true, retained ++ [now])

/-- The mutable state of a `RateLimiter` instance: the process-local
`defaultdict(list)` of admission timestamps (a total map, absent keys
reading as the empty list) and the `rate_limits` Firestore collection
keyed by document id. -/
structure LimiterState where
  memory : String → List ℚ
  fs : String → Option FsDoc

/-- `RateLimiter._check_firestore` at the state level: reads and writes only
the `rate_limits` document `key + ":" + windowKey`. -/
def check_firestore (st : LimiterState) (key windowKey : String)
    (maxRequests windowSeconds : ℕ) (now : ℚ) : Bool × LimiterState :=
  let docId := key ++ ":" ++ windowKey
  let step := check_firestore_txn (st.fs docId) key windowKey maxRequests windowSeconds now
  (step.1, { st with fs := fun i => if i = docId then step.2 else st.fs i })

/-- A sequence of durable-mode checks at the state level. -/
def fsRunState (key windowKey : String) (maxRequests windowSeconds : ℕ) :
    List ℚ → LimiterState → LimiterState
  | [], st => st
  | t :: ts, st =>
      fsRunState key windowKey maxRequests windowSeconds ts
        (check_firestore st key windowKey maxRequests windowSeconds t).2

/-- `RateLimiter.remaining`: `max(0, max_requests - len(active))` over the
in-memory timestamps newer than `now - window_seconds`. -/
def remaining (st : LimiterState) (key : String) (maxRequests : ℕ)
    (windowSeconds now : ℚ) : ℤ :=
  max 0 ((maxRequests : ℤ) -
    ((st.memory key).filter (fun t => now - windowSeconds < t)).length)

/-! ## Volume pricing (`pricing.py`) -/

/-- One entry of `VOLUME_TIERS`. -/
structure VolumeTier where
  min : ℤ
  perRecord : ℚ
  discount : String
  label : String

/-- `VOLUME_TIERS` from `pricing.py`, in source (descending) order. -/
def VOLUME_TIERS : List VolumeTier :=
  [⟨2000, 0.10, "50%", "Loyalty floor"⟩,
   ⟨500, 0.125, "37%", "Volume"⟩,
   ⟨100, 0.15, "25%", "Batch"⟩,
   ⟨0, 0.20, "0%", "Standard"⟩]

/-- `GENESIS_DISCOUNT` from `pricing.py` (20% off). -/
def GENESIS_DISCOUNT : ℚ := 0.80

/-- `ENTERPRISE_OUTREACH_THRESHOLD_USD` from `pricing.py`. -/
def ENTERPRISE_OUTREACH_THRESHOLD_USD : ℚ := 200.00

/-- The dict returned by `get_volume_price`; the genesis fields are only
present during the Genesis Epoch. -/
structure VolumePrice where
  perRecord : ℚ
  discount : String
  label : String
  cumulativeRecords : ℤ
  genesisEpoch : Bool
  genesisDaysRemaining : Option ℕ
  fullPrice : Option ℚ

/-- `get_volume_price` from `pricing.py`: scan `VOLUME_TIERS` in order and
take the first tier whose `min` the 30-day record count meets or exceeds;
apply the Genesis Epoch discount when active.  `genesis` and `gdays`
stand for `is_genesis_epoch()` and `genesis_days_remaining()`, which read
the wall clock. -/
def get_volume_price (genesis : Bool) (gdays : ℕ) (cumulativeRecords30d : ℤ) : VolumePrice :=
  match VOLUME_TIERS.find? (fun t => decide (t.min ≤ cumulativeRecords30d)) with
  | some t =>
      if genesis then
        ⟨round4 (t.perRecord * GENESIS_DISCOUNT), t.discount, t.label,
         cumulativeRecords30d, true, some gdays, some t.perRecord⟩
      else
        ⟨t.perRecord, t.discount, t.label, cumulativeRecords30d, false, none, none⟩
  | none => ⟨0.20, "0%", "Standard", 0, false, none, none⟩

/-! ## Volume ledger (`volume_tracker.py`, `VolumeTracker.record_purchase`) -/

/-- `WINDOW_DAYS` from `volume_tracker.py`. -/
def WINDOW_DAYS : ℕ := 30

/-- One stored purchase event; every field except `endpoint` is read back
with a `.get(..., default)`, hence modelled as optional. -/
structure VolEvent where
  timestamp : Option ℚ
  records : Option ℤ
  amountUsd : Option ℚ
  endpoint : String

/-- An `agent_volume_tracking/{wallet}` document as written by
`record_purchase`. -/
structure WalletDoc where
  walletAddress : String
  events : List VolEvent
  records30d : ℤ
  spend30d : ℚ
  lastUpdated : ℚ
  firstSeen : Option ℚ

/-- The tier dict returned by `record_purchase`: the `get_volume_price`
result extended with the rolling spend, the enterprise-outreach flag
(`total_spend >= ENTERPRISE_OUTREACH_THRESHOLD_USD`) and its message. -/
structure TierInfo where
  price : VolumePrice
  spend30d : ℚ
  enterpriseOutreach : Bool
  enterpriseMessage : Option String

/-- The enterprise outreach message attached by `record_purchase`. -/
def enterprise_message (totalSpend : ℚ) : String :=
  "You\x27ve spent $" ++ fmt2 totalSpend ++ " in the last 30 days. " ++
  "Enterprise licenses start at $8,000 with full compliance manifests " ++
  "and unlimited API access. Contact enterprise@iaeternum.ai"

/-- The tier info assembled at the end of `record_purchase`. -/
def mk_tier_info (genesis : Bool) (gdays : ℕ) (totalRecords : ℤ) (totalSpend : ℚ) : TierInfo :=
  { price := get_volume_price genesis gdays totalRecords,
    spend30d := round2 totalSpend,
    enterpriseOutreach := decide (ENTERPRISE_OUTREACH_THRESHOLD_USD ≤ totalSpend),
    enterpriseMessage :=
      if ENTERPRISE_OUTREACH_THRESHOLD_USD ≤ totalSpend then
        some (enterprise_message totalSpend)
      else none }

/-- `VolumeTracker.record_purchase` on a connected store and non-empty
wallet, without storage errors: prune events older than the 30-day window,
append the new event, recompute both aggregates over the retained events,
persist everything in one write, and return the tier info.  Timestamps are
seconds; `prior` is the current document, if any. -/
def record_purchase (prior : Option WalletDoc) (now : ℚ) (wallet : String)
    (records : ℤ) (amountUsd : ℚ) (endpoint : String)
    (genesis : Bool) (gdays : ℕ) : WalletDoc × TierInfo :=
  let windowStart := now - WINDOW_DAYS * 86400
  match prior with
  | some data =>
      let events :=
        (data.events.filter (fun e => windowStart < e.timestamp.getD now)) ++
        [⟨some now, some records, some amountUsd, endpoint⟩]
      let totalRecords := (events.map (fun e => e.records.getD 0)).sum
      let totalSpend := (events.map (fun e => e.amountUsd.getD 0)).sum
      (⟨wallet, events, totalRecords, round2 totalSpend, now,
        some (data.firstSeen.getD now)⟩,
       mk_tier_info genesis gdays totalRecords totalSpend)
  | none =>
      let totalRecords := records
      let totalSpend := amountUsd
      (⟨wallet, [⟨some now, some records, some amountUsd, endpoint⟩],
        totalRecords, round2 totalSpend, now, some now⟩,
       mk_tier_info genesis gdays totalRecords totalSpend)

/-! ## Claims -/

/-- C4: for every requiredAmountUsd (and any mode and environment), an
empty payment header yields `valid=false` with the missing-payment-proof
error and performs no outbound facilitator call. -/
theorem c4_empty_header_no_call (testMode : Bool) (env : VerifyEnv) (requiredAmountUsd : ℚ) :
    verify_x402_payment testMode env "" requiredAmountUsd =
      (⟨false, 0, .str "", .str "Missing payment header"⟩, 0, none) := by
  rfl

/-- C6: `get_volume_price` selects the first tier, in descending threshold
order, whose minimum the non-negative 30-day record count meets or exceeds:
`>= 2000` the loyalty floor, `>= 500` the volume tier, `>= 100` the batch
(entry) tier, below 100 the standard tier; 120 records select the batch
tier and 2120 records the loyalty floor. -/
theorem c6_volume_tier_selection (genesis : Bool) (gdays : ℕ) (n : ℤ) :
    (2000 ≤ n → (get_volume_price genesis gdays n).label = "Loyalty floor") ∧
    (500 ≤ n → n < 2000 → (get_volume_price genesis gdays n).label = "Volume") ∧
    (100 ≤ n → n < 500 → (get_volume_price genesis gdays n).label = "Batch") ∧
    (0 ≤ n → n < 100 → (get_volume_price genesis gdays n).label = "Standard") ∧
    (get_volume_price genesis gdays 120).label = "Batch" ∧
    (get_volume_price genesis gdays 2120).label = "Loyalty floor" := by
  refine ⟨?_, ?_, ?_, ?_, ?_, ?_⟩
  · intro h1
    simp only [get_volume_price, VOLUME_TIERS, List.find?, decide_eq_true h1]
    cases genesis <;> rfl
  · intro h1 h2
    simp only [get_volume_price, VOLUME_TIERS, List.find?,
      decide_eq_true h1, decide_eq_false (by omega : ¬ (2000:ℤ) ≤ n)]
    cases genesis <;> rfl
  · intro h1 h2
    simp only [get_volume_price, VOLUME_TIERS, List.find?, decide_eq_true h1,
      decide_eq_false (by omega : ¬ (2000:ℤ) ≤ n),
      decide_eq_false (by omega : ¬ (500:ℤ) ≤ n)]
    cases genesis <;> rfl
  · intro h1 h2
    simp only [get_volume_price, VOLUME_TIERS, List.find?, decide_eq_true h1,
      decide_eq_false (by omega : ¬ (2000:ℤ) ≤ n),
      decide_eq_false (by omega : ¬ (500:ℤ) ≤ n),
      decide_eq_false (by omega : ¬ (100:ℤ) ≤ n)]
    cases genesis <;> rfl
  · cases genesis <;> rfl
  · cases genesis <;> rfl

/-- Witness for C6 at concrete record counts. -/
theorem c6_volume_tier_selection_witness :
    (get_volume_price false 0 150).label = "Batch" ∧
    (get_volume_price true 45 600).label = "Volume" := by
  exact ⟨(c6_volume_tier_selection false 0 150).2.2.1 (by omega) (by omega),
         (c6_volume_tier_selection true 45 600).2.1 (by omega) (by omega)⟩

/-- C3: the in-memory check first discards timestamps at or before
`now - windowSeconds`, denies without recording when the retained count
reaches `maxRequests`, otherwise records `now` and allows; a caller denied
at capacity is admitted at any later instant at which fewer than
`maxRequests` recorded timestamps remain inside the window. -/
theorem c3_memory_sliding_window (timestamps : List ℚ) (maxRequests : ℕ)
    (windowSeconds now : ℚ) (hw : 0 ≤ windowSeconds) :
    (∀ t ∈ timestamps, t < now - windowSeconds →
        t ∉ (check_memory timestamps maxRequests windowSeconds now).2) ∧
    (maxRequests ≤ (timestamps.filter (fun t => now - windowSeconds < t)).length →
        check_memory timestamps maxRequests windowSeconds now =
          (false, timestamps.filter (fun t => now - windowSeconds < t))) ∧
    ((timestamps.filter (fun t => now - windowSeconds < t)).length < maxRequests →
        check_memory timestamps maxRequests windowSeconds now =
          (true, timestamps.filter (fun t => now - windowSeconds < t) ++ [now])) ∧
    (∀ later : ℚ,
        (timestamps.filter (fun t => later - windowSeconds < t)).length < maxRequests →
        (check_memory timestamps maxRequests windowSeconds later).1 = true) := by
  refine ⟨?_, ?_, ?_, ?_⟩
  · intro t ht hlt hmem
    simp only [check_memory] at hmem
    split at hmem
    · rcases (List.mem_filter.mp hmem) with ⟨_, hp⟩
      have := of_decide_eq_true hp
      linarith
    · rcases List.mem_append.mp hmem with hm | hm
      · rcases (List.mem_filter.mp hm) with ⟨_, hp⟩
        have := of_decide_eq_true hp
        linarith
      · have : t = now := by simpa using hm
        linarith
  · intro h
    simp only [check_memory]
    rw [if_pos h]
  · intro h
    simp only [check_memory]
    rw [if_neg (by omega)]
  · intro later h
    simp only [check_memory]
    rw [if_neg (by omega)]

/-- Witness for C3: a caller at capacity is denied, and the same recorded
state admits again once both timestamps have aged out of the window. -/
theorem c3_memory_sliding_window_witness :
    (check_memory [100, 150] 2 100 180).1 = false ∧
    (check_memory [100, 150] 2 100 300).1 = true := by
  constructor
  · rw [(c3_memory_sliding_window [100, 150] 2 100 180 (by norm_num)).2.1
      (by norm_num [List.filter])]
  · exact (c3_memory_sliding_window [100, 150] 2 100 180 (by norm_num)).2.2.2 300
      (by norm_num [List.filter])

/-- C8 counterexample: at a 30-day spend of exactly 200.00 USD the code
sets the enterprise-outreach flag to true, although 200.00 does not
strictly exceed the threshold — refuting the claim that the flag is true
exactly when the spend strictly exceeds 200.00 USD. -/
theorem c8_outreach_counterexample :
    (record_purchase none 0 "0xWallet" 10 200 "oracle" false 0).2.enterpriseOutreach = true ∧
    ¬ ((200 : ℚ) > ENTERPRISE_OUTREACH_THRESHOLD_USD) := by
  constructor
  · simp only [record_purchase, mk_tier_info, decide_eq_true_eq]
    norm_num [ENTERPRISE_OUTREACH_THRESHOLD_USD]
  · norm_num [ENTERPRISE_OUTREACH_THRESHOLD_USD]

/-- C8 (amended): the returned tier info carries an enterprise-outreach
boolean that is true exactly when the wallet's 30-day spend meets or
exceeds the fixed 200.00 USD threshold (in particular it is true at
exactly 200.00 USD). -/
theorem c8_outreach_threshold (now : ℚ) (wallet : String) (records : ℤ)
    (amountUsd : ℚ) (endpoint : String) (genesis : Bool) (gdays : ℕ) :
    ((record_purchase none now wallet records amountUsd endpoint genesis gdays).2.enterpriseOutreach
        = decide (ENTERPRISE_OUTREACH_THRESHOLD_USD ≤ amountUsd)) ∧
    (∀ prior : WalletDoc,
      (record_purchase (some prior) now wallet records amountUsd endpoint
          genesis gdays).2.enterpriseOutreach
        = decide (ENTERPRISE_OUTREACH_THRESHOLD_USD ≤
            ((prior.events.filter
                (fun e => now - WINDOW_DAYS * 86400 < e.timestamp.getD now)).map
              (fun e => e.amountUsd.getD 0)).sum + amountUsd)) := by
  constructor
  · rfl
  · intro prior
    simp [record_purchase, mk_tier_info]

/-- C10 counterexample: a 200 response whose object lacks a `success`
field but carries an `error` field propagates that error, not the generic
"Settlement failed" message the claim asserts. -/
theorem c10_missing_success_counterexample :
    (interpretResponse 5 (.response 200 ""
        (.ok (.obj [("error", .str "boom"), ("txHash", .str "0xabc")])))).valid = false ∧
    (interpretResponse 5 (.response 200 ""
        (.ok (.obj [("error", .str "boom"), ("txHash", .str "0xabc")])))).error = .str "boom" ∧
    "boom" ≠ "Settlement failed" := by
  refine ⟨rfl, rfl, by decide⟩

/-- C10 (amended): for every 200 response whose JSON object lacks a
`success` field, the settlement is treated as failed (`success` defaults
to false, so `valid=false` even when a `transaction` or `txHash` field is
present), with the error taken from the object's `error` field and
defaulting to "Settlement failed" when that too is absent. -/
theorem c10_missing_success_fails (required : ℚ) (text : String)
    (kvs : List (String × Json)) (h : kvs.lookup "success" = none) :
    (interpretResponse required (.response 200 text (.ok (.obj kvs)))).valid = false ∧
    (interpretResponse required (.response 200 text (.ok (.obj kvs)))).error =
      (kvs.lookup "error").getD (.str "Settlement failed") := by
  constructor <;> simp [interpretResponse, h, truthy]

/-- Witness for C10 (amended) on a success-less object carrying only a
transaction hash. -/
theorem c10_missing_success_fails_witness :
    List.lookup "success" [(("txHash" : String), Json.str "0xabc")] = none ∧
    ((interpretResponse 5 (.response 200 ""
        (.ok (.obj [("txHash", .str "0xabc")])))).valid = false ∧
     (interpretResponse 5 (.response 200 ""
        (.ok (.obj [("txHash", .str "0xabc")])))).error =
       (List.lookup "error" [(("txHash" : String), Json.str "0xabc")]).getD
         (.str "Settlement failed")) := by
  have h : List.lookup "success" [(("txHash" : String), Json.str "0xabc")] = none := rfl
  exact ⟨h, c10_missing_success_fails 5 "" _ h⟩

/-- C7: on a wallet with an existing ledger document, `record_purchase`
prunes every stored event older than the 30-day window, appends the new
event, recomputes both aggregates over exactly the retained events, and
persists events and aggregates in the same written document; hence the
persisted list has no entry older than the window, and an aged-out event
contributes to neither aggregate. -/
theorem c7_prune_append_invariant (prior : WalletDoc) (now : ℚ) (wallet : String)
    (records : ℤ) (amountUsd : ℚ) (endpoint : String) (genesis : Bool) (gdays : ℕ) :
    ((record_purchase (some prior) now wallet records amountUsd endpoint genesis gdays).1.events =
      prior.events.filter (fun e => now - WINDOW_DAYS * 86400 < e.timestamp.getD now) ++
        [⟨some now, some records, some amountUsd, endpoint⟩]) ∧
    ((record_purchase (some prior) now wallet records amountUsd endpoint genesis
        gdays).1.records30d =
      (((record_purchase (some prior) now wallet records amountUsd endpoint genesis
          gdays).1.events).map (fun e => e.records.getD 0)).sum) ∧
    ((record_purchase (some prior) now wallet records amountUsd endpoint genesis
        gdays).1.spend30d =
      round2 ((((record_purchase (some prior) now wallet records amountUsd endpoint genesis
          gdays).1.events).map (fun e => e.amountUsd.getD 0)).sum)) ∧
    (∀ e ∈ (record_purchase (some prior) now wallet records amountUsd endpoint genesis
        gdays).1.events,
      now - WINDOW_DAYS * 86400 < e.timestamp.getD now) ∧
    (∀ e ∈ prior.events, e.timestamp.getD now < now - WINDOW_DAYS * 86400 →
      e ∉ (record_purchase (some prior) now wallet records amountUsd endpoint genesis
        gdays).1.events) := by
  have hev : (record_purchase (some prior) now wallet records amountUsd endpoint genesis
      gdays).1.events =
      prior.events.filter (fun e => now - WINDOW_DAYS * 86400 < e.timestamp.getD now) ++
        [⟨some now, some records, some amountUsd, endpoint⟩] := rfl
  refine ⟨hev, rfl, rfl, ?_, ?_⟩
  · intro e he
    rw [hev] at he
    rcases List.mem_append.mp he with hm | hm
    · exact of_decide_eq_true (List.mem_filter.mp hm).2
    · have heq : e = ⟨some now, some records, some amountUsd, endpoint⟩ := by
        simpa using hm
      rw [heq]
      show now - (WINDOW_DAYS : ℚ) * 86400 < (Option.getD (some now) now)
      simp only [Option.getD, WINDOW_DAYS]
      norm_num
  · intro e he hold hmem
    rw [hev] at hmem
    rcases List.mem_append.mp hmem with hm | hm
    · have := of_decide_eq_true (List.mem_filter.mp hm).2
      linarith
    · have heq : e = ⟨some now, some records, some amountUsd, endpoint⟩ := by
        simpa using hm
      rw [heq] at hold
      simp only [Option.getD, WINDOW_DAYS] at hold
      norm_num at hold
      linarith

/-- A concrete wallet ledger with one event outside the 30-day window and
one inside it, used to witness C7. -/
def demoPrior : WalletDoc :=
  ⟨"0xW", [⟨some 0, some 40, some 2, "oracle"⟩, ⟨some 1000000, some 40, some 2, "oracle"⟩],
   80, 4, 1000000, some 0⟩

/-- Witness for C7: the aged-out event (timestamp 0, window start 100) is
absent from the persisted list after the next write. -/
theorem c7_prune_append_invariant_witness :
    (⟨some 0, some 40, some 2, "oracle"⟩ : VolEvent) ∉
      (record_purchase (some demoPrior) 2592100 "0xW" 40 2 "oracle" false 0).1.events := by
  exact (c7_prune_append_invariant demoPrior 2592100 "0xW" 40 2 "oracle" false 0).2.2.2.2
    ⟨some 0, some 40, some 2, "oracle"⟩ (List.mem_cons_self _ _)
    (by norm_num [WINDOW_DAYS])

/-- C5: with test mode off and a non-empty header, decoding tries
base64-then-JSON first (its payload is used even if raw JSON would also
succeed); on failure it tries raw JSON; if both fail the result is
`valid=false` with the cannot-decode error and no facilitator call; on
success the payload's `x402Version` field is read with a default of 1
when absent and sent in the settle body. -/
theorem c5_decode_order (env : VerifyEnv) (header : String) (required : ℚ)
    (hne : header ≠ "") :
    (∀ kvs, env.b64json header = some (.obj kvs) →
      verify_x402_payment false env header required =
        (interpretResponse required env.facilitator, 1,
         some (.obj [("x402Version", (kvs.lookup "x402Version").getD (.num 1)),
                     ("paymentPayload", .obj kvs),
                     ("paymentRequirements", paymentRequirements env.network required)]))) ∧
    (∀ kvs, env.b64json header = none → env.rawjson header = some (.obj kvs) →
      verify_x402_payment false env header required =
        (interpretResponse required env.facilitator, 1,
         some (.obj [("x402Version", (kvs.lookup "x402Version").getD (.num 1)),
                     ("paymentPayload", .obj kvs),
                     ("paymentRequirements", paymentRequirements env.network required)]))) ∧
    (env.b64json header = none → env.rawjson header = none →
      verify_x402_payment false env header required =
        (⟨false, 0, .str "", .str "Cannot decode payment header"⟩, 0, none)) := by
  refine ⟨?_, ?_, ?_⟩
  · intro kvs h
    simp [verify_x402_payment, verify_x402_payment.decodeAttempt, hne, h]
  · intro kvs h h2
    simp [verify_x402_payment, verify_x402_payment.decodeAttempt, hne, h, h2]
  · intro h h2
    simp [verify_x402_payment, verify_x402_payment.decodeAttempt, hne, h, h2]

/-- A concrete verification environment whose base64 decode always yields
the empty JSON object (no `x402Version` field), used to witness C5. -/
def c5Env : VerifyEnv :=
  ⟨fun _ => some (.obj []), fun _ => none, "eip155:8453", .timeout⟩

/-- Witness for C5: the decoded empty object gets version 1 by default
and the facilitator outcome is interpreted. -/
theorem c5_decode_order_witness :
    verify_x402_payment false c5Env "HDR" 5 =
      (interpretResponse 5 FacilitatorOutcome.timeout, 1,
       some (.obj [("x402Version", .num 1),
                   ("paymentPayload", .obj []),
                   ("paymentRequirements", paymentRequirements "eip155:8453" 5)])) := by
  have h := (c5_decode_order c5Env "HDR" 5 (by simp)).1 [] rfl
  exact h

/-- C2: whenever the header decodes (here: to a JSON object via base64),
`verify_x402_payment` returns exactly the interpretation of the
facilitator outcome, and that interpretation maps: non-200 to a failure
naming the status and the 200-character-truncated body; a bare 200 string
to success with that string as the transaction reference and the required
amount as settled amount; a 200 object with `success = false` to a failure
propagating the object's `error` field exactly; a 200 object with
`success = true` to success with the required amount and the reference
from a string `transaction` field or a nested object's `txHash`; and a
timeout or unexpected exception to a failed result, never an unhandled
exception. -/
theorem c2_facilitator_interpretation (env : VerifyEnv) (header : String)
    (required : ℚ) (kvs0 : List (String × Json)) (hne : header ≠ "")
    (hdec : env.b64json header = some (.obj kvs0)) :
    ((verify_x402_payment false env header required).1 =
      interpretResponse required env.facilitator) ∧
    (∀ (status : ℕ) (text : String) (body : Except String Json), status ≠ 200 →
      interpretResponse required (.response status text body) =
        ⟨false, 0, .str "",
         .str ("Facilitator settle failed (" ++ toString status ++ "): " ++ text.take 200)⟩) ∧
    (∀ (text s : String),
      interpretResponse required (.response 200 text (.ok (.str s))) =
        ⟨true, required, .str s, .str ""⟩) ∧
    (∀ (text : String) (kvs : List (String × Json)) (e : Json),
      kvs.lookup "success" = some (.bool false) → kvs.lookup "error" = some e →
      interpretResponse required (.response 200 text (.ok (.obj kvs))) =
        ⟨false, 0, .str "", e⟩) ∧
    (∀ (text : String) (kvs : List (String × Json)) (s : String),
      kvs.lookup "success" = some (.bool true) → kvs.lookup "transaction" = some (.str s) →
      interpretResponse required (.response 200 text (.ok (.obj kvs))) =
        ⟨true, required, .str s, .str ""⟩) ∧
    (∀ (text : String) (kvs kvs2 : List (String × Json)) (s : String),
      kvs.lookup "success" = some (.bool true) → kvs.lookup "transaction" = some (.obj kvs2) →
      kvs2.lookup "txHash" = some (.str s) →
      interpretResponse required (.response 200 text (.ok (.obj kvs))) =
        ⟨true, required, .str s, .str ""⟩) ∧
    (interpretResponse required .timeout =
      ⟨false, 0, .str "", .str "x402 facilitator timeout"⟩) ∧
    (∀ m : String, interpretResponse required (.exn m) =
      ⟨false, 0, .str "", .str ("Verification error: " ++ m)⟩) := by
  refine ⟨?_, ?_, ?_, ?_, ?_, ?_, rfl, fun m => rfl⟩
  · simp [verify_x402_payment, verify_x402_payment.decodeAttempt, hne, hdec]
  · intro status text body h
    simp [interpretResponse, h]
  · intro text s
    simp [interpretResponse]
  · intro text kvs e h1 h2
    simp [interpretResponse, h1, h2, truthy]
  · intro text kvs s h1 h2
    simp [interpretResponse, h1, h2, truthy, pyStr]
  · intro text kvs kvs2 s h1 h2 h3
    simp [interpretResponse, h1, h2, h3, truthy]

/-- A concrete environment whose facilitator reports a failed settlement
with the error "insufficient funds", used to witness C2. -/
def c2Env : VerifyEnv :=
  ⟨fun _ => some (.obj []), fun _ => none, "eip155:8453",
   .response 200 "" (.ok (.obj [("success", .bool false), ("error", .str "insufficient funds")]))⟩

set_option maxRecDepth 4000 in
/-- Witness for C2: the engine propagates the facilitator's exact error on
a failed settlement, surfaces a non-200 status, and accepts a bare-string
transaction hash. -/
theorem c2_facilitator_interpretation_witness :
    ((verify_x402_payment false c2Env "HDR" 5).1 = interpretResponse 5 c2Env.facilitator) ∧
    (interpretResponse 5 (.response 200 ""
        (.ok (.obj [("success", .bool false), ("error", .str "insufficient funds")]))) =
      ⟨false, 0, .str "", .str "insufficient funds"⟩) ∧
    (interpretResponse 5 (.response 503 "overloaded" (.ok .null)) =
      ⟨false, 0, .str "", .str "Facilitator settle failed (503): overloaded"⟩) ∧
    (interpretResponse 5 (.response 200 "" (.ok (.str "0xABCDEF"))) =
      ⟨true, 5, .str "0xABCDEF", .str ""⟩) := by
  have h := c2_facilitator_interpretation c2Env "HDR" 5 [] (by simp) rfl
  refine ⟨h.1, h.2.2.2.1 "" _ (.str "insufficient funds") rfl rfl, ?_, h.2.2.1 "" "0xABCDEF"⟩
  have h2 := h.2.1 503 "overloaded" (.ok .null) (by omega)
  simpa using h2


/-- Durable-mode checks leave the process-local in-memory map untouched. -/
lemma fsRunState_memory (key windowKey : String) (maxRequests windowSeconds : ℕ) :
    ∀ (times : List ℚ) (st : LimiterState),
      (fsRunState key windowKey maxRequests windowSeconds times st).memory = st.memory := by
  intro times
  induction times with
  | nil => intro st; rfl
  | cons t ts ih =>
      intro st
      rw [fsRunState, ih]
      rfl

/-- C9: `remaining` reports `max(0, maxRequests - k)` where `k` counts the
process-local in-memory timestamps newer than `now - windowSeconds`; it
reads no durable state, so any sequence of durable-mode admissions leaves
its report unchanged, and with no in-memory activity it still reports
`maxRequests` after those admissions. -/
theorem c9_remaining_memory_only (mem : String → List ℚ) (fs : String → Option FsDoc)
    (key windowKey : String) (maxRequests windowSeconds : ℕ) (times : List ℚ)
    (key2 : String) (maxRequests2 : ℕ) (windowSeconds2 now : ℚ) :
    (remaining ⟨mem, fs⟩ key2 maxRequests2 windowSeconds2 now =
      max 0 ((maxRequests2 : ℤ) -
        ((mem key2).filter (fun t => now - windowSeconds2 < t)).length)) ∧
    ((fsRunState key windowKey maxRequests windowSeconds times ⟨mem, fs⟩).memory = mem) ∧
    (remaining (fsRunState key windowKey maxRequests windowSeconds times ⟨mem, fs⟩)
        key2 maxRequests2 windowSeconds2 now =
      remaining ⟨mem, fs⟩ key2 maxRequests2 windowSeconds2 now) ∧
    (remaining (fsRunState key windowKey maxRequests windowSeconds times ⟨fun _ => [], fs⟩)
        key2 maxRequests2 windowSeconds2 now = maxRequests2) := by
  refine ⟨rfl, fsRunState_memory key windowKey maxRequests windowSeconds times ⟨mem, fs⟩,
    ?_, ?_⟩
  · simp only [remaining, fsRunState_memory]
  · simp only [remaining, fsRunState_memory, List.filter_nil, List.length_nil]
    omega

/-- Within one `(key, windowBucket)` document, a run of durable-mode calls
starting from an existing document with count `c ≤ maxRequests` admits
exactly `min calls (maxRequests - c)` of them and leaves the count at
`c + min calls (maxRequests - c)`. -/
lemma fsRun_some_count (key windowKey : String) (maxRequests windowSeconds : ℕ) :
    ∀ (times : List ℚ) (d : FsDoc), d.count.getD 0 ≤ maxRequests →
      (fsRun key windowKey maxRequests windowSeconds times (some d)).1 =
        min times.length (maxRequests - d.count.getD 0) ∧
      fsDocCount (fsRun key windowKey maxRequests windowSeconds times (some d)).2 =
        d.count.getD 0 + min times.length (maxRequests - d.count.getD 0) := by
  intro times
  induction times with
  | nil => intro d h; simp [fsRun, fsDocCount]
  | cons t ts ih =>
      intro d h
      by_cases hc : maxRequests ≤ d.count.getD 0
      · have hceq : d.count.getD 0 = maxRequests := le_antisymm h hc
        have hstep : check_firestore_txn (some d) key windowKey maxRequests windowSeconds t
            = (false, some d) := by
          simp only [check_firestore_txn]
          rw [if_pos hc]
        obtain ⟨ih1, ih2⟩ := ih d h
        constructor
        · simp only [fsRun, hstep, List.length_cons]
          simp [ih1]
          omega
        · simp only [fsRun, hstep, List.length_cons]
          simp [ih2]
          omega
      · have hstep : check_firestore_txn (some d) key windowKey maxRequests windowSeconds t
            = (true, some { d with count := some (d.count.getD 0 + 1) }) := by
          simp only [check_firestore_txn]
          rw [if_neg hc]
        have h' : ({ d with count := some (d.count.getD 0 + 1) } : FsDoc).count.getD 0
            ≤ maxRequests := by
          simp only [Option.getD_some]
          omega
        obtain ⟨ih1, ih2⟩ := ih { d with count := some (d.count.getD 0 + 1) } h'
        simp only [Option.getD_some] at ih1 ih2
        constructor
        · simp only [fsRun, hstep, List.length_cons]
          simp [ih1]
          omega
        · simp only [fsRun, hstep, List.length_cons]
          simp [ih2]
          omega

/-- With `maxRequests ≥ 1`, a run from an absent document admits exactly
`min calls maxRequests` calls and leaves the count at the same value. -/
lemma fsRun_none_count (key windowKey : String) (maxRequests windowSeconds : ℕ)
    (h : 1 ≤ maxRequests) (times : List ℚ) :
    (fsRun key windowKey maxRequests windowSeconds times none).1 =
      min times.length maxRequests ∧
    fsDocCount (fsRun key windowKey maxRequests windowSeconds times none).2 =
      min times.length maxRequests := by
  cases times with
  | nil => simp [fsRun, fsDocCount]
  | cons t ts =>
      have hstep : check_firestore_txn none key windowKey maxRequests windowSeconds t
          = (true, some ⟨key, some 1, windowKey, t, t + windowSeconds + 3600⟩) := rfl
      obtain ⟨h1, h2⟩ := fsRun_some_count key windowKey maxRequests windowSeconds ts
        ⟨key, some 1, windowKey, t, t + windowSeconds + 3600⟩ (by simpa using h)
      simp only [Option.getD_some] at h1 h2
      constructor
      · simp only [fsRun, hstep, List.length_cons]
        simp [h1]
        omega
      · simp only [fsRun, hstep, List.length_cons]
        simp [h2]
        omega

/-- C1 counterexample: with `maxRequests = 0` the absent-document branch
still admits the first call and stores `count = 1`, so the stored count
exceeds `maxRequests` and more than `maxRequests` calls are admitted —
refuting the claim as stated for every maxRequests. -/
theorem c1_zero_max_counterexample :
    (check_firestore_txn none "k" "w" 0 86400 0).1 = true ∧
    fsDocCount (check_firestore_txn none "k" "w" 0 86400 0).2 = 1 ∧
    ¬ (1 ≤ 0) := by
  exact ⟨rfl, rfl, by omega⟩

/-- C1 (amended: for maxRequests ≥ 1): the transactional check admits and
creates the document with count 1 when absent, increments and admits when
`count < maxRequests`, denies without mutation when `count ≥ maxRequests`;
along every sequence of calls on the same `(key, windowBucket)` starting
from an absent document the stored count never exceeds `maxRequests`, at
most `maxRequests` calls are admitted, and once `maxRequests` calls have
been made the next call is denied. -/
theorem c1_firestore_limiter_bounded (key windowKey : String)
    (maxRequests windowSeconds : ℕ) (now : ℚ) (h : 1 ≤ maxRequests) :
    (check_firestore_txn none key windowKey maxRequests windowSeconds now =
      (true, some ⟨key, some 1, windowKey, now, now + windowSeconds + 3600⟩)) ∧
    (∀ d : FsDoc, d.count.getD 0 < maxRequests →
      check_firestore_txn (some d) key windowKey maxRequests windowSeconds now =
        (true, some { d with count := some (d.count.getD 0 + 1) })) ∧
    (∀ d : FsDoc, maxRequests ≤ d.count.getD 0 →
      check_firestore_txn (some d) key windowKey maxRequests windowSeconds now =
        (false, some d)) ∧
    (∀ times : List ℚ,
      fsDocCount (fsRun key windowKey maxRequests windowSeconds times none).2
        ≤ maxRequests ∧
      (fsRun key windowKey maxRequests windowSeconds times none).1 ≤ maxRequests) ∧
    (∀ (times : List ℚ) (t : ℚ), times.length = maxRequests →
      (check_firestore_txn (fsRun key windowKey maxRequests windowSeconds times none).2
        key windowKey maxRequests windowSeconds t).1 = false) := by
  refine ⟨rfl, ?_, ?_, ?_, ?_⟩
  · intro d hd
    simp only [check_firestore_txn]
    rw [if_neg (by omega)]
  · intro d hd
    simp only [check_firestore_txn]
    rw [if_pos hd]
  · intro times
    obtain ⟨h1, h2⟩ := fsRun_none_count key windowKey maxRequests windowSeconds h times
    constructor
    · omega
    · omega
  · intro times t hlen
    obtain ⟨h1, h2⟩ := fsRun_none_count key windowKey maxRequests windowSeconds h times
    rw [hlen] at h2
    rcases hfin : (fsRun key windowKey maxRequests windowSeconds times none).2 with _ | d
    · rw [hfin] at h2
      simp [fsDocCount] at h2
      omega
    · rw [hfin] at h2
      simp only [fsDocCount] at h2
      simp only [check_firestore_txn]
      rw [if_pos (by omega)]

/-- Witness for C1 (amended) at `maxRequests = 2`: three calls admit at
most two, the stored count stays at most two, and after two calls the
third is denied. -/
theorem c1_firestore_limiter_bounded_witness :
    (1 : ℕ) ≤ 2 ∧
    fsDocCount (fsRun "k" "19000" 2 86400 [0, 1, 2] none).2 ≤ 2 ∧
    (fsRun "k" "19000" 2 86400 [0, 1, 2] none).1 ≤ 2 ∧
    (check_firestore_txn (fsRun "k" "19000" 2 86400 [0, 1] none).2
      "k" "19000" 2 86400 2).1 = false := by
  have h := c1_firestore_limiter_bounded "k" "19000" 2 86400 0 (by omega)
  exact ⟨by omega, (h.2.2.2.1 [0, 1, 2]).1, (h.2.2.2.1 [0, 1, 2]).2,
    h.2.2.2.2 [0, 1] 2 rfl⟩
